import Mathlib

/-!
Shallow embedding of the `semtraits` crate (src/lib.rs, src/impls.rs).

The crate defines three traits — `Share`, `OrClosed`, `OrPoisoned` — and
implements them for standard-library and tokio shared-ownership, channel
and lock types.  Every trait method either passes the success value
through or panics with one of three constant messages, via
`Result::expect`.  We embed a Rust `Result` together with an `Outcome`
type that makes the panic observable as data, translate each `impl`
block of `impls.rs` into a typeclass instance, and record the set of
implemented type shapes so that the crate's deliberate non-implementations
can be stated.
-/

namespace Semtraits

/-- Observable outcome of calling a method that may panic: either a
returned value, or a panic carrying the message that was supplied to
`Result::expect`. -/
inductive Outcome (V : Type) where
  | value (v : V)
  | panics (msg : String)
deriving DecidableEq

/-- Rust's `Result<T, E>`. -/
inductive RResult (T E : Type) where
  | Ok (v : T)
  | Err (e : E)
deriving DecidableEq

/-- Rust's `Result::expect(self, msg)`: returns the `Ok` value, panics
with the supplied message on `Err`.  (We model the panic payload at the
level of the message string the crate supplies.) -/
def RResult.expect {T E : Type} : RResult T E → String → Outcome T
  | .Ok v, _ => .value v
  | .Err _, msg => .panics msg

/-- src/impls.rs line 3. -/
def SEND_PANIC_MESSAGE : String := "sending with disconnected receiver"

/-- src/impls.rs line 4. -/
def RECV_PANIC_MESSAGE : String := "receiving with no senders"

/-- src/impls.rs line 5. -/
def POISON_PANIC_MESSAGE : String := "lock poisoned"

/-- `std::sync::mpsc::SendError<E>`: wraps the un-sent payload. -/
structure SendError (E : Type) where
  payload : E
deriving DecidableEq

/-- `std::sync::mpsc::RecvError`: a unit struct. -/
inductive RecvError where
  | mk
deriving DecidableEq

/-- `std::sync::PoisonError<T>`: carries the guard that would have been
returned (recoverable via `into_inner`, which this crate never calls). -/
structure PoisonError (T : Type) where
  guard : T
deriving DecidableEq

/-- `std::sync::LockResult<T> = Result<T, PoisonError<T>>` (a type alias). -/
abbrev LockResult (T : Type) := RResult T (PoisonError T)

namespace Tokio

/-- `tokio::sync::mpsc::error::SendError<E>`: wraps the un-sent payload. -/
structure MpscSendError (E : Type) where
  payload : E
deriving DecidableEq

/-- `tokio::sync::watch::error::SendError<E>`: wraps the un-sent payload. -/
structure WatchSendError (E : Type) where
  payload : E
deriving DecidableEq

/-- `tokio::sync::watch::error::RecvError`: a unit-like struct. -/
inductive WatchRecvError where
  | mk
deriving DecidableEq

/-- `tokio::sync::oneshot::error::RecvError`: a unit-like struct. -/
inductive OneshotRecvError where
  | mk
deriving DecidableEq

end Tokio

/-- Trait `OrClosed` (src/lib.rs lines 174-178): a single method
`or_closed` consuming `self` and producing the associated `Value`,
with the possible panic made observable in `Outcome`.  The associated
type `Value` is modelled as an `outParam`. -/
class OrClosed (α : Type) (Value : outParam Type) where
  or_closed : α → Outcome Value

/-- Trait `OrPoisoned` (src/lib.rs lines 197-201). -/
class OrPoisoned (α : Type) (Value : outParam Type) where
  or_poisoned : α → Outcome Value

/-- src/impls.rs lines 27-33: `impl<T, E> OrClosed for Result<T, SendError<E>>`
with `or_closed = self.expect(SEND_PANIC_MESSAGE)`. -/
instance {T E : Type} : OrClosed (RResult T (SendError E)) T where
  or_closed r := r.expect SEND_PANIC_MESSAGE

/-- src/impls.rs lines 35-41: `impl<T> OrClosed for Result<T, RecvError>`
with `or_closed = self.expect(RECV_PANIC_MESSAGE)`. -/
instance {T : Type} : OrClosed (RResult T RecvError) T where
  or_closed r := r.expect RECV_PANIC_MESSAGE

/-- src/impls.rs lines 43-49: `impl<T> OrPoisoned for LockResult<T>`
with `or_poisoned = self.expect(POISON_PANIC_MESSAGE)`. -/
instance {T : Type} : OrPoisoned (LockResult T) T where
  or_poisoned r := r.expect POISON_PANIC_MESSAGE

/-- src/impls.rs lines 66-72: `impl<T, E> OrClosed for Result<T,
mpsc::error::SendError<E>>` (tokio), `self.expect(SEND_PANIC_MESSAGE)`. -/
instance {T E : Type} : OrClosed (RResult T (Tokio.MpscSendError E)) T where
  or_closed r := r.expect SEND_PANIC_MESSAGE

/-- src/impls.rs lines 76-82: `impl<T, E> OrClosed for Result<T,
watch::error::SendError<E>>` (tokio), `self.expect(SEND_PANIC_MESSAGE)`. -/
instance {T E : Type} : OrClosed (RResult T (Tokio.WatchSendError E)) T where
  or_closed r := r.expect SEND_PANIC_MESSAGE

/-- src/impls.rs lines 84-90: `impl<T> OrClosed for Result<T,
watch::error::RecvError>` (tokio), `self.expect(RECV_PANIC_MESSAGE)`. -/
instance {T : Type} : OrClosed (RResult T Tokio.WatchRecvError) T where
  or_closed r := r.expect RECV_PANIC_MESSAGE

/-- src/impls.rs lines 94-100: `impl<T> OrClosed for Result<T,
oneshot::error::RecvError>` (tokio), `self.expect(RECV_PANIC_MESSAGE)`. -/
instance {T : Type} : OrClosed (RResult T Tokio.OneshotRecvError) T where
  or_closed r := r.expect RECV_PANIC_MESSAGE

/-- Rust's `Clone` trait: duplication taking the receiver by shared
reference. -/
class Clone (α : Type) where
  clone : α → α

/-- Trait `Share` (src/lib.rs lines 148-152): `Share: Clone` with the
single provided method `fn share(&self) -> Self { self.clone() }`.
None of the crate's impls override the default body. -/
class Share (α : Type) [Clone α] where
  share : α → α := fun a => Clone.clone a

/-- `std::rc::Rc<T>`: a reference-counted handle, abstracted to the
identity of the allocation it points to; `clone` yields a handle to the
same allocation. -/
structure Rc (T : Type) where
  alloc : Nat
deriving DecidableEq

instance {T : Type} : Clone (Rc T) := ⟨fun r => r⟩

/-- src/impls.rs line 20: `impl<T> Share for Rc<T> {}` (default body). -/
instance {T : Type} : Share (Rc T) := {}

/-- `std::sync::Arc<T>`, abstracted like `Rc`. -/
structure Arc (T : Type) where
  alloc : Nat
deriving DecidableEq

instance {T : Type} : Clone (Arc T) := ⟨fun r => r⟩

/-- src/impls.rs line 21: `impl<T> Share for Arc<T> {}` (default body). -/
instance {T : Type} : Share (Arc T) := {}

/-- `std::rc::Weak<T>`. -/
structure RcWeak (T : Type) where
  alloc : Nat
deriving DecidableEq

instance {T : Type} : Clone (RcWeak T) := ⟨fun r => r⟩

/-- src/impls.rs line 22: `impl<T> Share for rc::Weak<T> {}`. -/
instance {T : Type} : Share (RcWeak T) := {}

/-- `std::sync::Weak<T>`. -/
structure SyncWeak (T : Type) where
  alloc : Nat
deriving DecidableEq

instance {T : Type} : Clone (SyncWeak T) := ⟨fun r => r⟩

/-- src/impls.rs line 23: `impl<T> Share for sync::Weak<T> {}`. -/
instance {T : Type} : Share (SyncWeak T) := {}

/-- `std::sync::mpsc::Sender<T>`: a channel sender handle, abstracted to
the identity of the channel it feeds; `clone` yields a second sender on
the same channel. -/
structure Sender (T : Type) where
  channel : Nat
deriving DecidableEq

instance {T : Type} : Clone (Sender T) := ⟨fun s => s⟩

/-- src/impls.rs line 24: `impl<T> Share for Sender<T> {}`. -/
instance {T : Type} : Share (Sender T) := {}

/-- `std::sync::mpsc::SyncSender<T>`. -/
structure SyncSender (T : Type) where
  channel : Nat
deriving DecidableEq

instance {T : Type} : Clone (SyncSender T) := ⟨fun s => s⟩

/-- src/impls.rs line 25: `impl<T> Share for SyncSender<T> {}`. -/
instance {T : Type} : Share (SyncSender T) := {}

namespace Tokio

/-- `tokio::sync::mpsc::Sender<T>`. -/
structure MpscSender (T : Type) where
  channel : Nat
deriving DecidableEq

/-- `tokio::sync::mpsc::UnboundedSender<T>`. -/
structure MpscUnboundedSender (T : Type) where
  channel : Nat
deriving DecidableEq

/-- `tokio::sync::mpsc::WeakSender<T>`. -/
structure MpscWeakSender (T : Type) where
  channel : Nat
deriving DecidableEq

/-- `tokio::sync::mpsc::WeakUnboundedSender<T>`. -/
structure MpscWeakUnboundedSender (T : Type) where
  channel : Nat
deriving DecidableEq

/-- `tokio::sync::watch::Sender<T>`. -/
structure WatchSender (T : Type) where
  channel : Nat
deriving DecidableEq

/-- `tokio::sync::watch::Receiver<T>`: a watch-channel receiver handle,
abstracted to the identity of the channel whose value it observes;
`clone` yields a second receiver observing the same channel. -/
structure WatchReceiver (T : Type) where
  channel : Nat
deriving DecidableEq

end Tokio

instance {T : Type} : Clone (Tokio.MpscSender T) := ⟨fun s => s⟩

/-- src/impls.rs line 59: `impl<T> Share for mpsc::Sender<T> {}`. -/
instance {T : Type} : Share (Tokio.MpscSender T) := {}

instance {T : Type} : Clone (Tokio.MpscUnboundedSender T) := ⟨fun s => s⟩

/-- src/impls.rs line 60: `impl<T> Share for mpsc::UnboundedSender<T> {}`. -/
instance {T : Type} : Share (Tokio.MpscUnboundedSender T) := {}

instance {T : Type} : Clone (Tokio.MpscWeakSender T) := ⟨fun s => s⟩

/-- src/impls.rs line 61: `impl<T> Share for mpsc::WeakSender<T> {}`. -/
instance {T : Type} : Share (Tokio.MpscWeakSender T) := {}

instance {T : Type} : Clone (Tokio.MpscWeakUnboundedSender T) := ⟨fun s => s⟩

/-- src/impls.rs line 62: `impl<T> Share for mpsc::WeakUnboundedSender<T> {}`. -/
instance {T : Type} : Share (Tokio.MpscWeakUnboundedSender T) := {}

instance {T : Type} : Clone (Tokio.WatchSender T) := ⟨fun s => s⟩

/-- src/impls.rs line 63: `impl<T> Share for watch::Sender<T> {}`. -/
instance {T : Type} : Share (Tokio.WatchSender T) := {}

instance {T : Type} : Clone (Tokio.WatchReceiver T) := ⟨fun r => r⟩

/-- src/impls.rs line 64: `impl<T> Share for watch::Receiver<T> {}`. -/
instance {T : Type} : Share (Tokio.WatchReceiver T) := {}

/-- Models one call of `x.share()`.  Since `fn share(&self) -> Self`
takes its receiver by shared reference (and its default body calls
`Clone::clone(&self)`, also by shared reference), the call leaves the
caller holding the original handle unchanged and additionally yields the
returned handle: the pair is (receiver after the call, returned value). -/
def shareCall {α : Type} [Clone α] [Share α] (x : α) : α × α :=
  (x, Share.share x)

/-- Models `n` successive `x.share()` calls, threading the receiver
through each call and collecting the returned handles. -/
def shareMany {α : Type} [Clone α] [Share α] : α → Nat → α × List α
  | x, 0 => (x, [])
  | x, n + 1 =>
    let first := shareCall x
    let rest := shareMany first.1 n
    (rest.1, first.2 :: rest.2)

/-- The channel-operation result shapes discussed by the crate: the six
shapes given an `OrClosed` impl in src/impls.rs, plus the shapes the
crate deliberately leaves without one (the comments at src/impls.rs
lines 74, 92 and 102-105). -/
inductive ChannelResultShape where
  | stdMpscSend
  | stdMpscRecv
  | stdLock
  | tokioMpscSend
  | tokioMpscRecv
  | tokioWatchSend
  | tokioWatchRecv
  | tokioOneshotSend
  | tokioOneshotRecv
  | tokioBroadcastSend
  | tokioBroadcastRecv
deriving DecidableEq

/-- The set of result shapes for which src/impls.rs contains an
`OrClosed` impl block: exactly the six impl blocks at lines 27-33,
35-41, 66-72, 76-82, 84-90 and 94-100.  `tokio::sync::mpsc` receive
returns an `Option` (line 74 comment), `tokio::sync::oneshot` send
returns `Result<(), T>` (line 92 comment), and broadcast channels are
excluded (lines 102-105 comment); `LockResult` only gets `OrPoisoned`. -/
def orClosedImplemented : ChannelResultShape → Bool
  | .stdMpscSend => true
  | .stdMpscRecv => true
  | .stdLock => false
  | .tokioMpscSend => true
  | .tokioMpscRecv => false
  | .tokioWatchSend => true
  | .tokioWatchRecv => true
  | .tokioOneshotSend => false
  | .tokioOneshotRecv => true
  | .tokioBroadcastSend => false
  | .tokioBroadcastRecv => false

/-- The handle types discussed by the crate's `Share` impls, together
with endpoint types that receive no impl. -/
inductive HandleType where
  | rc
  | arc
  | rcWeak
  | syncWeak
  | stdSender
  | stdSyncSender
  | stdReceiver
  | tokioMpscSender
  | tokioMpscUnboundedSender
  | tokioMpscWeakSender
  | tokioMpscWeakUnboundedSender
  | tokioMpscReceiver
  | tokioWatchSender
  | tokioWatchReceiver
  | tokioOneshotSender
  | tokioOneshotReceiver
deriving DecidableEq

/-- The set of handle types for which src/impls.rs contains a `Share`
impl block: the twelve impls at lines 20-25 and 59-64. -/
def shareImplemented : HandleType → Bool
  | .rc => true
  | .arc => true
  | .rcWeak => true
  | .syncWeak => true
  | .stdSender => true
  | .stdSyncSender => true
  | .stdReceiver => false
  | .tokioMpscSender => true
  | .tokioMpscUnboundedSender => true
  | .tokioMpscWeakSender => true
  | .tokioMpscWeakUnboundedSender => true
  | .tokioMpscReceiver => false
  | .tokioWatchSender => true
  | .tokioWatchReceiver => true
  | .tokioOneshotSender => false
  | .tokioOneshotReceiver => false

/-- Classifies the receiving-end handle types among `HandleType`. -/
def HandleType.isReceiverEnd : HandleType → Bool
  | .stdReceiver => true
  | .tokioMpscReceiver => true
  | .tokioWatchReceiver => true
  | .tokioOneshotReceiver => true
  | _ => false

/-- C1: for every input whose error branch is present, `or_closed`
panics and the panic carries exactly the documented constant message:
`SEND_PANIC_MESSAGE` for the three send-error impls (std `SendError`,
tokio mpsc `SendError`, tokio watch `SendError`) and
`RECV_PANIC_MESSAGE` for the three receive-error impls (std `RecvError`,
tokio watch `RecvError`, tokio oneshot `RecvError`). -/
theorem or_closed_message_exactness :
    (∀ (T E : Type) (e : SendError E),
      OrClosed.or_closed (RResult.Err e : RResult T (SendError E)) =
        Outcome.panics SEND_PANIC_MESSAGE) ∧
    (∀ (T : Type) (e : RecvError),
      OrClosed.or_closed (RResult.Err e : RResult T RecvError) =
        Outcome.panics RECV_PANIC_MESSAGE) ∧
    (∀ (T E : Type) (e : Tokio.MpscSendError E),
      OrClosed.or_closed (RResult.Err e : RResult T (Tokio.MpscSendError E)) =
        Outcome.panics SEND_PANIC_MESSAGE) ∧
    (∀ (T E : Type) (e : Tokio.WatchSendError E),
      OrClosed.or_closed (RResult.Err e : RResult T (Tokio.WatchSendError E)) =
        Outcome.panics SEND_PANIC_MESSAGE) ∧
    (∀ (T : Type) (e : Tokio.WatchRecvError),
      OrClosed.or_closed (RResult.Err e : RResult T Tokio.WatchRecvError) =
        Outcome.panics RECV_PANIC_MESSAGE) ∧
    (∀ (T : Type) (e : Tokio.OneshotRecvError),
      OrClosed.or_closed (RResult.Err e : RResult T Tokio.OneshotRecvError) =
        Outcome.panics RECV_PANIC_MESSAGE) :=
  ⟨fun _ _ _ => rfl, fun _ _ => rfl, fun _ _ _ => rfl,
   fun _ _ _ => rfl, fun _ _ => rfl, fun _ _ => rfl⟩

/-- C2: for every success-shaped input, every trait method returns the
wrapped value unchanged and performs no panic: each of the six
`or_closed` impls and `or_poisoned` maps `Ok v` to the value `v`. -/
theorem identity_on_success :
    (∀ (T E : Type) (v : T),
      OrClosed.or_closed (RResult.Ok v : RResult T (SendError E)) =
        Outcome.value v) ∧
    (∀ (T : Type) (v : T),
      OrClosed.or_closed (RResult.Ok v : RResult T RecvError) =
        Outcome.value v) ∧
    (∀ (T E : Type) (v : T),
      OrClosed.or_closed (RResult.Ok v : RResult T (Tokio.MpscSendError E)) =
        Outcome.value v) ∧
    (∀ (T E : Type) (v : T),
      OrClosed.or_closed (RResult.Ok v : RResult T (Tokio.WatchSendError E)) =
        Outcome.value v) ∧
    (∀ (T : Type) (v : T),
      OrClosed.or_closed (RResult.Ok v : RResult T Tokio.WatchRecvError) =
        Outcome.value v) ∧
    (∀ (T : Type) (v : T),
      OrClosed.or_closed (RResult.Ok v : RResult T Tokio.OneshotRecvError) =
        Outcome.value v) ∧
    (∀ (T : Type) (g : T),
      OrPoisoned.or_poisoned (RResult.Ok g : LockResult T) =
        Outcome.value g) :=
  ⟨fun _ _ _ => rfl, fun _ _ => rfl, fun _ _ _ => rfl, fun _ _ _ => rfl,
   fun _ _ => rfl, fun _ _ => rfl, fun _ _ => rfl⟩

/-- C3: `or_poisoned` on a `LockResult` returns the guarded value on the
success branch, panics with the constant message "lock poisoned" on the
poisoned branch, and never hands back the guard carried inside the
poison error (no poison-clearing path). -/
theorem or_poisoned_contract :
    (∀ (T : Type) (g : T),
      OrPoisoned.or_poisoned (RResult.Ok g : LockResult T) =
        Outcome.value g) ∧
    (∀ (T : Type) (pe : PoisonError T),
      OrPoisoned.or_poisoned (RResult.Err pe : LockResult T) =
        Outcome.panics POISON_PANIC_MESSAGE) ∧
    (∀ (T : Type) (pe : PoisonError T) (v : T),
      OrPoisoned.or_poisoned (RResult.Err pe : LockResult T) ≠
        Outcome.value v) :=
  ⟨fun _ _ => rfl, fun _ _ => rfl,
   fun _ _ _ h => Outcome.noConfusion h⟩

/-- C3 witness: the contract evaluated at a concrete poisoned lock
result over `Nat`. -/
theorem or_poisoned_contract_witness :
    OrPoisoned.or_poisoned
        (RResult.Err (PoisonError.mk 0) : LockResult Nat) ≠
      Outcome.value 1 :=
  or_poisoned_contract.2.2 Nat (PoisonError.mk 0) 1

/-- C4: for every type the crate implements `Share` on, `share` is
behaviourally identical to the type's `clone`: none of the twelve impl
blocks overrides the default body `self.clone()`, so `Share.share x`
equals `Clone.clone x` on each of them.  (In the embedding the
method-call form and the fully-qualified form are literally the same
function `Share.share`, so their equivalence holds by construction.) -/
theorem share_equals_clone :
    (∀ (T : Type) (x : Rc T), Share.share x = Clone.clone x) ∧
    (∀ (T : Type) (x : Arc T), Share.share x = Clone.clone x) ∧
    (∀ (T : Type) (x : RcWeak T), Share.share x = Clone.clone x) ∧
    (∀ (T : Type) (x : SyncWeak T), Share.share x = Clone.clone x) ∧
    (∀ (T : Type) (x : Sender T), Share.share x = Clone.clone x) ∧
    (∀ (T : Type) (x : SyncSender T), Share.share x = Clone.clone x) ∧
    (∀ (T : Type) (x : Tokio.MpscSender T),
      Share.share x = Clone.clone x) ∧
    (∀ (T : Type) (x : Tokio.MpscUnboundedSender T),
      Share.share x = Clone.clone x) ∧
    (∀ (T : Type) (x : Tokio.MpscWeakSender T),
      Share.share x = Clone.clone x) ∧
    (∀ (T : Type) (x : Tokio.MpscWeakUnboundedSender T),
      Share.share x = Clone.clone x) ∧
    (∀ (T : Type) (x : Tokio.WatchSender T),
      Share.share x = Clone.clone x) ∧
    (∀ (T : Type) (x : Tokio.WatchReceiver T),
      Share.share x = Clone.clone x) :=
  ⟨fun _ _ => rfl, fun _ _ => rfl, fun _ _ => rfl, fun _ _ => rfl,
   fun _ _ => rfl, fun _ _ => rfl, fun _ _ => rfl, fun _ _ => rfl,
   fun _ _ => rfl, fun _ _ => rfl, fun _ _ => rfl, fun _ _ => rfl⟩

/-- C5: `OrClosed` is not offered for the channel flavours with
ambiguous errors: the implemented-shape set read off src/impls.rs
excludes tokio broadcast receive (error conflates closed with lagged),
tokio broadcast send, tokio oneshot send (shape `Result<(), T>`), and
tokio mpsc receive (an `Option`, not a `Result`); and it contains
exactly the six shapes with an impl block. -/
theorem or_closed_omissions :
    orClosedImplemented ChannelResultShape.tokioBroadcastRecv = false ∧
    orClosedImplemented ChannelResultShape.tokioBroadcastSend = false ∧
    orClosedImplemented ChannelResultShape.tokioOneshotSend = false ∧
    orClosedImplemented ChannelResultShape.tokioMpscRecv = false ∧
    (∀ s : ChannelResultShape, orClosedImplemented s = true ↔
      (s = ChannelResultShape.stdMpscSend ∨
       s = ChannelResultShape.stdMpscRecv ∨
       s = ChannelResultShape.tokioMpscSend ∨
       s = ChannelResultShape.tokioWatchSend ∨
       s = ChannelResultShape.tokioWatchRecv ∨
       s = ChannelResultShape.tokioOneshotRecv)) :=
  ⟨rfl, rfl, rfl, rfl, fun s => by cases s <;> simp [orClosedImplemented]⟩

/-- C5 witness: the characterisation of the implemented-shape set
evaluated at concrete shapes, discharging the disjunction concretely. -/
theorem or_closed_omissions_witness :
    orClosedImplemented ChannelResultShape.stdMpscSend = true ∧
    orClosedImplemented ChannelResultShape.tokioBroadcastRecv = false :=
  ⟨(or_closed_omissions.2.2.2.2 ChannelResultShape.stdMpscSend).mpr
      (Or.inl rfl),
   or_closed_omissions.1⟩

/-- C6: each trait method is a pure, deterministic, single-step
classify-and-branch operation: two calls on equal inputs produce equal
outcomes, and each call is exactly a case split on the already-produced
result, returning the value on `Ok` and panicking with the fixed
message on `Err`, with no other dependence. -/
theorem trait_methods_pure_classify_and_branch :
    (∀ (T E : Type) (r s : RResult T (SendError E)), r = s →
      OrClosed.or_closed r = OrClosed.or_closed s) ∧
    (∀ (T : Type) (r s : RResult T RecvError), r = s →
      OrClosed.or_closed r = OrClosed.or_closed s) ∧
    (∀ (T : Type) (r s : LockResult T), r = s →
      OrPoisoned.or_poisoned r = OrPoisoned.or_poisoned s) ∧
    (∀ (T E : Type) (r : RResult T (SendError E)),
      OrClosed.or_closed r =
        match r with
        | .Ok v => Outcome.value v
        | .Err _ => Outcome.panics SEND_PANIC_MESSAGE) ∧
    (∀ (T : Type) (r : RResult T RecvError),
      OrClosed.or_closed r =
        match r with
        | .Ok v => Outcome.value v
        | .Err _ => Outcome.panics RECV_PANIC_MESSAGE) ∧
    (∀ (T : Type) (r : LockResult T),
      OrPoisoned.or_poisoned r =
        match r with
        | .Ok v => Outcome.value v
        | .Err _ => Outcome.panics POISON_PANIC_MESSAGE) :=
  ⟨fun _ _ _ _ h => h ▸ rfl, fun _ _ _ h => h ▸ rfl, fun _ _ _ h => h ▸ rfl,
   fun _ _ r => by cases r <;> rfl,
   fun _ r => by cases r <;> rfl,
   fun _ r => by cases r <;> rfl⟩

/-- C6 witness: the determinism clauses applied at concrete inputs. -/
theorem trait_methods_pure_classify_and_branch_witness :
    OrClosed.or_closed (RResult.Ok 3 : RResult Nat (SendError Nat)) =
      OrClosed.or_closed (RResult.Ok 3 : RResult Nat (SendError Nat)) ∧
    OrClosed.or_closed (RResult.Err RecvError.mk : RResult Nat RecvError) =
      OrClosed.or_closed (RResult.Err RecvError.mk : RResult Nat RecvError) ∧
    OrPoisoned.or_poisoned (RResult.Ok 5 : LockResult Nat) =
      OrPoisoned.or_poisoned (RResult.Ok 5 : LockResult Nat) :=
  ⟨trait_methods_pure_classify_and_branch.1 Nat Nat (.Ok 3) (.Ok 3) rfl,
   trait_methods_pure_classify_and_branch.2.1 Nat (.Err .mk) (.Err .mk) rfl,
   trait_methods_pure_classify_and_branch.2.2.1 Nat (.Ok 5) (.Ok 5) rfl⟩

/-- C7: on the failure path of a send result the un-sent payload inside
the send error is discarded: `or_closed` on `Err (SendError payload)`
panics, the outcome is independent of the payload, and it is never a
returned value — for both the std and the tokio mpsc send impls. -/
theorem send_payload_discarded :
    (∀ (T E : Type) (p q : E),
      OrClosed.or_closed (RResult.Err (SendError.mk p) : RResult T (SendError E)) =
        OrClosed.or_closed (RResult.Err (SendError.mk q) : RResult T (SendError E))) ∧
    (∀ (T E : Type) (p : E),
      OrClosed.or_closed (RResult.Err (SendError.mk p) : RResult T (SendError E)) =
        Outcome.panics SEND_PANIC_MESSAGE) ∧
    (∀ (T E : Type) (p : E) (v : T),
      OrClosed.or_closed (RResult.Err (SendError.mk p) : RResult T (SendError E)) ≠
        Outcome.value v) ∧
    (∀ (T E : Type) (p q : E),
      OrClosed.or_closed
          (RResult.Err (Tokio.MpscSendError.mk p) : RResult T (Tokio.MpscSendError E)) =
        OrClosed.or_closed
          (RResult.Err (Tokio.MpscSendError.mk q) : RResult T (Tokio.MpscSendError E))) ∧
    (∀ (T E : Type) (p : E),
      OrClosed.or_closed
          (RResult.Err (Tokio.MpscSendError.mk p) : RResult T (Tokio.MpscSendError E)) =
        Outcome.panics SEND_PANIC_MESSAGE) ∧
    (∀ (T E : Type) (p : E) (v : T),
      OrClosed.or_closed
          (RResult.Err (Tokio.MpscSendError.mk p) : RResult T (Tokio.MpscSendError E)) ≠
        Outcome.value v) :=
  ⟨fun _ _ _ _ => rfl, fun _ _ _ => rfl,
   fun _ _ _ _ h => Outcome.noConfusion h,
   fun _ _ _ _ => rfl, fun _ _ _ => rfl,
   fun _ _ _ _ h => Outcome.noConfusion h⟩

/-- C7 witness: the payload-discard law evaluated at concrete payloads
over `Nat`. -/
theorem send_payload_discarded_witness :
    OrClosed.or_closed
        (RResult.Err (SendError.mk 1) : RResult Nat (SendError Nat)) =
      OrClosed.or_closed
        (RResult.Err (SendError.mk 2) : RResult Nat (SendError Nat)) ∧
    OrClosed.or_closed
        (RResult.Err (SendError.mk 1) : RResult Nat (SendError Nat)) ≠
      Outcome.value 1 :=
  ⟨send_payload_discarded.1 Nat Nat 1 2,
   send_payload_discarded.2.2.1 Nat Nat 1 1⟩

/-- C8: `share` takes its receiver by shared reference, so the original
handle survives any number of calls unchanged: after `n` successive
`x.share()` calls the caller still holds `x`, and every returned handle
is the one `share` produces from `x`. -/
theorem share_receiver_not_consumed :
    ∀ {α : Type} [Clone α] [Share α] (x : α) (n : Nat),
      (shareMany x n).1 = x ∧
      (shareMany x n).2 = List.replicate n (Share.share x) := by
  intro α _ _ x n
  induction n with
  | zero => exact ⟨rfl, rfl⟩
  | succ n ih =>
    refine ⟨ih.1, ?_⟩
    show Share.share x :: (shareMany x n).2 = _
    rw [ih.2, List.replicate_succ]

/-- C8 witness: three successive share calls on a concrete `Rc Nat`
handle leave the original handle in place and return three clones. -/
theorem share_receiver_not_consumed_witness :
    (shareMany (Rc.mk 0 : Rc Nat) 3).1 = Rc.mk 0 ∧
    (shareMany (Rc.mk 0 : Rc Nat) 3).2 =
      List.replicate 3 (Share.share (Rc.mk 0 : Rc Nat)) :=
  share_receiver_not_consumed (Rc.mk 0 : Rc Nat) 3

/-- C9: under the tokio feature the `Share` trait is implemented for a
receiver end as well: `watch::Receiver<T>` is in the implemented set, it
is the only receiver-end type in that set, and its `share` (its `clone`)
yields a second receiver observing the same watch channel. -/
theorem watch_receiver_implements_share :
    shareImplemented HandleType.tokioWatchReceiver = true ∧
    HandleType.isReceiverEnd HandleType.tokioWatchReceiver = true ∧
    (∀ h : HandleType,
      (shareImplemented h && h.isReceiverEnd) =
        (h == HandleType.tokioWatchReceiver)) ∧
    (∀ (T : Type) (r : Tokio.WatchReceiver T),
      (Share.share r).channel = r.channel) :=
  ⟨rfl, rfl, fun h => by cases h <;> rfl, fun _ _ => rfl⟩

end Semtraits
